import Mathlib

/-!
Verification of the Telegram/Gemini relay bot (`bot.py`).

The development shallowly embeds the bot's module-level startup check,
its two command handlers (`start_command`, `help_command`), the free-text
relay handler (`handle_message`) and the handler registration performed
by `main`, as pure Lean functions producing an explicit trace of
externally observable effects.  External collaborators (the Telegram
transport, the Gemini client) are modelled by an oracle (`World`)
recording the outcome of each potentially failing call; Python
exceptions are modelled by an explicit `raised` flag and by cutting the
effect trace at the point the exception escapes.
-/

namespace Bot

/-- The ASCII apostrophe character, used in the bot's f-string log
messages. -/
def apos : String := String.singleton (Char.ofNat 39)

/-- Outcome of `model.generate_content_async(msg)` followed by the
`response.text` accessor: either the call raises (transport, auth,
quota, ... error, carrying a cause string), or it returns a well-formed
response whose extractable text is `some t`, or `none` when the
response carries no usable text (in which case the `.text` accessor
raises). -/
inductive GenOutcome where
  | raised (cause : String)
  | responded (text : Option String)
deriving DecidableEq

/-- The cause string of the exception raised by the Gemini library's
`response.text` accessor when a well-formed response contains no
extractable text (a `ValueError` in the library; the exact wording is
library-internal and irrelevant to the claims). -/
def NO_TEXT_CAUSE : String := "response contains no extractable text"

/-- Oracle for one invocation of the relay handler: outcome of each
external call it may perform.  `replySendCause` is the textual form of
the exception raised when sending the generated reply fails. -/
structure World where
  typingOk : Bool
  gen : GenOutcome
  replySendOk : Bool
  replySendCause : String
  apologySendOk : Bool
deriving DecidableEq

/-- One externally observable effect of a handler: a log line, the
typing activity signal, the Gemini completion call, or an outbound text
send to a conversation.  `ok` records whether the underlying network
call succeeded. -/
inductive Effect where
  | logInfo (entry : String)
  | sendTyping (conv : Nat) (ok : Bool)
  | genCall (prompt : String)
  | sendText (conv : Nat) (payload : String) (ok : Bool)
  | logError (entry : String)
deriving DecidableEq

/-- Result of running a handler: the trace of effects it performed, and
whether it terminated by propagating an exception (`raised = true`). -/
structure HandleResult where
  trace : List Effect
  raised : Bool
deriving DecidableEq

/-- Python `update.effective_user.username or update.effective_user.first_name`:
the username when present and non-empty (Python truthiness), else the
first name. -/
def userDisplay (username : Option String) (firstName : String) : String :=
  match username with
  | some u => if u = "" then firstName else u
  | none => firstName

/-- Python `str(...)` of an optional string, as interpolated by an
f-string: `None` renders as the literal text `None`. -/
def pyStr (o : Option String) : String :=
  match o with
  | some s => s
  | none => "None"

/-- The info log line `Получено сообщение от {user}: --{msg}--` emitted
at the top of `handle_message` (the message is wrapped in ASCII
apostrophes in the source). -/
def infoLogMsg (user msg : String) : String :=
  "Получено сообщение от " ++ user ++ ": " ++ apos ++ msg ++ apos

/-- The info log line `Ответ от Gemini: ...` emitted on a successful
completion. -/
def geminiLogMsg (t : String) : String :=
  "Ответ от Gemini: " ++ apos ++ t ++ apos

/-- The error log line `Ошибка при работе с Gemini для пользователя {user}: {cause}`
emitted in the `except` block of `handle_message`. -/
def errorLogMsg (user cause : String) : String :=
  "Ошибка при работе с Gemini для пользователя " ++ user ++ ": " ++ cause

/-- The fixed apology text sent to the user whenever the `try` block of
`handle_message` raises. -/
def APOLOGY : String :=
  "Извините, произошла ошибка при обработке вашего запроса. Возможно, вы задали слишком сложный вопрос или что-то пошло не так на моей стороне. Пожалуйста, попробуйте еще раз."

/-- The `except Exception` block of `handle_message`: log the cause with
the user identity, then attempt to send the fixed apology; if that send
itself raises, the exception escapes the handler. -/
def exceptBranch (user cause : String) (conv : Nat) (pre : List Effect)
    (w : World) : HandleResult :=
  { trace := pre ++ [Effect.logError (errorLogMsg user cause),
      Effect.sendText conv APOLOGY w.apologySendOk],
    raised := !w.apologySendOk }

/-- Shallow embedding of `handle_message(update, context)` from
`bot.py`: log the inbound message, return silently when the text is
empty (Python falsiness of the empty string), send the typing action
(outside the `try` block, so its failure escapes the handler), then run
the `try` block: call Gemini, extract the response text, log it and
reply with it verbatim; any exception in the `try` block is caught and
answered with the fixed apology. -/
def handle_message (msg : String) (username : Option String)
    (firstName : String) (conv : Nat) (w : World) : HandleResult :=
  let user := userDisplay username firstName
  let e0 : List Effect := [Effect.logInfo (infoLogMsg user msg)]
  if msg = "" then
    { trace := e0, raised := false }
  else
    let e1 := e0 ++ [Effect.sendTyping conv w.typingOk]
    if w.typingOk then
      match w.gen with
      | GenOutcome.raised cause =>
          exceptBranch user cause conv (e1 ++ [Effect.genCall msg]) w
      | GenOutcome.responded none =>
          exceptBranch user NO_TEXT_CAUSE conv (e1 ++ [Effect.genCall msg]) w
      | GenOutcome.responded (some t) =>
          let e2 := e1 ++ [Effect.genCall msg,
            Effect.logInfo (geminiLogMsg t),
            Effect.sendText conv t w.replySendOk]
          if w.replySendOk then { trace := e2, raised := false }
          else exceptBranch user w.replySendCause conv e2 w
    else
      { trace := e1, raised := true }

/-- The fixed greeting text of `start_command`. -/
def GREETING : String :=
  "Привет! Я бот, работающий на основе Gemini. Просто напиши мне что-нибудь, и я попробую ответить."

/-- The fixed usage text of `help_command`. -/
def USAGE : String :=
  "Я могу отвечать на твои вопросы, генерировать тексты и многое другое. Просто задай мне вопрос!"

/-- The info log line of `start_command`. -/
def startLogMsg (username : Option String) : String :=
  "Получена команда /start от " ++ pyStr username

/-- The info log line of `help_command`. -/
def helpLogMsg (username : Option String) : String :=
  "Получена команда /help от " ++ pyStr username

/-- Shallow embedding of `start_command(update, context)`: reply with
the fixed greeting, then log the command with the sender's username; if
the reply send raises, the exception escapes before the log line. -/
def start_command (username : Option String) (conv : Nat) (sendOk : Bool) :
    HandleResult :=
  if sendOk then
    { trace := [Effect.sendText conv GREETING true,
        Effect.logInfo (startLogMsg username)], raised := false }
  else
    { trace := [Effect.sendText conv GREETING false], raised := true }

/-- Shallow embedding of `help_command(update, context)`: reply with the
fixed usage text, then log the command with the sender's username. -/
def help_command (username : Option String) (conv : Nat) (sendOk : Bool) :
    HandleResult :=
  if sendOk then
    { trace := [Effect.sendText conv USAGE true,
        Effect.logInfo (helpLogMsg username)], raised := false }
  else
    { trace := [Effect.sendText conv USAGE false], raised := true }

/-- All outbound reply-send attempts in a trace (conversation, payload,
success flag), in order.  The typing activity signal is not a text
send. -/
def sendAttempts (r : HandleResult) : List (Nat × String × Bool) :=
  r.trace.filterMap fun e =>
    match e with
    | Effect.sendText conv payload ok => some (conv, payload, ok)
    | _ => none

/-- The successfully delivered outbound replies in a trace
(conversation, payload), in order. -/
def outboundReplies (r : HandleResult) : List (Nat × String) :=
  r.trace.filterMap fun e =>
    match e with
    | Effect.sendText conv payload true => some (conv, payload)
    | _ => none

/-- The payloads of all outbound reply-send attempts in a trace. -/
def sendPayloads (r : HandleResult) : List String :=
  (sendAttempts r).map fun x => x.2.1

/-- The prompts of all Gemini completion calls in a trace. -/
def completionCalls (r : HandleResult) : List String :=
  r.trace.filterMap fun e =>
    match e with
    | Effect.genCall prompt => some prompt
    | _ => none

/-- The error log entries in a trace, in order. -/
def errorLogs (r : HandleResult) : List String :=
  r.trace.filterMap fun e =>
    match e with
    | Effect.logError entry => some entry
    | _ => none

/-- The handlers registered by `main`, in registration order. -/
inductive Handler where
  | start
  | help
  | relay
deriving DecidableEq

/-- Result of the module-level startup code of `bot.py`: either the
process exits with a code (before `main` registers any handler), or it
reaches `main` with the given handlers registered. -/
inductive StartupResult where
  | exited (code : Nat)
  | running (handlers : List Handler)
deriving DecidableEq

/-- Python falsiness of `os.getenv(...)`: the variable is unset (`None`)
or set to the empty string. -/
def pyFalsy (o : Option String) : Bool :=
  match o with
  | some s => s = ""
  | none => true

/-- The handlers registered so far in a startup result: none when the
process exited during the module-level checks. -/
def registeredHandlers (s : StartupResult) : List Handler :=
  match s with
  | StartupResult.exited _ => []
  | StartupResult.running hs => hs

/-- Shallow embedding of the module-level startup code of `bot.py`
followed by `main`'s handler registration: if `TELEGRAM_BOT_TOKEN` is
falsy, `exit(1)`; else if `GEMINI_API_KEY` is falsy, `exit(1)`; else
`main` registers the start, help and relay handlers. -/
def moduleStartup (telegramToken geminiKey : Option String) : StartupResult :=
  if pyFalsy telegramToken then StartupResult.exited 1
  else if pyFalsy geminiKey then StartupResult.exited 1
  else StartupResult.running [Handler.start, Handler.help, Handler.relay]

/-- The python-telegram-bot `filters.COMMAND` filter as produced by the
Telegram platform for ordinary command messages: a bot-command entity at
offset 0, i.e. the text starts with a slash. -/
def isCommandShaped (t : String) : Bool :=
  match t.data with
  | [] => false
  | c :: _ => c = Char.ofNat 47

/-- The first whitespace-delimited token of a character sequence,
Python `s.split(None, 1)[0]`. -/
def firstToken (cs : List Char) : List Char :=
  cs.takeWhile fun c => !c.isWhitespace

/-- Splitting a character sequence on the at-sign, Python
`s.split("@")` (the empty sequence splits to one empty part). -/
def splitAtSign : List Char → List (List Char)
  | [] => [[]]
  | c :: cs =>
      if c = Char.ofNat 64 then [] :: splitAtSign cs
      else
        match splitAtSign cs with
        | [] => [[c]]
        | p :: ps => (c :: p) :: ps

/-- ASCII lowercasing of a character sequence, Python `s.lower()` on
command tokens. -/
def lowerChars (cs : List Char) : List Char :=
  cs.map Char.toLower

/-- Matching of a python-telegram-bot `CommandHandler(names, ...)`
against a message text, following the library's documented behaviour:
the text must start with a slash; the first whitespace-delimited token
(slash stripped) is split on the at-sign; its first part, lowercased,
must be a registered command name, and its second part (defaulting to
the bot's own username when no at-sign is present) must be the bot's
username, case-insensitively. -/
def cmdMatches (names : List String) (botName : String) (t : String) : Bool :=
  isCommandShaped t &&
    (let parts := splitAtSign (firstToken (t.data.drop 1))
     names.contains (String.mk (lowerChars (parts.getD 0 []))) &&
       (String.mk (lowerChars (parts.getD 1 botName.data)) ==
         String.mk (lowerChars botName.data)))

/-- Dispatch of one inbound text message by the handlers registered in
`main`, in registration order: `CommandHandler("start", start_command)`,
then `CommandHandler("help", help_command)`, then
`MessageHandler(filters.TEXT AND NOT filters.COMMAND, handle_message)`.
The first matching handler receives the update; when none matches the
update is dropped. -/
def dispatch (botName : String) (t : String) : Option Handler :=
  if cmdMatches ["start"] botName t then some Handler.start
  else if cmdMatches ["help"] botName t then some Handler.help
  else if t ≠ "" ∧ ¬(isCommandShaped t = true) then some Handler.relay
  else none

/-- Processing of one inbound text update end to end: route it with
`dispatch` and run the selected handler; a dropped update performs no
effects. -/
def processUpdate (botName : String) (msg : String) (username : Option String)
    (firstName : String) (conv : Nat) (sendOk : Bool) (w : World) :
    List Effect :=
  match dispatch botName msg with
  | some Handler.start => (start_command username conv sendOk).trace
  | some Handler.help => (help_command username conv sendOk).trace
  | some Handler.relay => (handle_message msg username firstName conv w).trace
  | none => []

/-- C1: for every handled inbound text event whose outbound-channel calls
succeed, the relay handler delivers exactly one outbound reply to the
originating conversation — the generated text on completion success, the
fixed apology on completion failure — never zero and never more than
one, except that an event with empty text produces no reply at all. -/
theorem C1_exactly_one_reply (msg : String) (username : Option String)
    (firstName : String) (conv : Nat) (w : World)
    (ht : w.typingOk = true) (hr : w.replySendOk = true)
    (ha : w.apologySendOk = true) :
    outboundReplies (handle_message msg username firstName conv w) =
      if msg = "" then []
      else
        match w.gen with
        | GenOutcome.responded (some t) => [(conv, t)]
        | GenOutcome.responded none => [(conv, APOLOGY)]
        | GenOutcome.raised _ => [(conv, APOLOGY)] := by
  by_cases hm : msg = ""
  · simp [hm, handle_message, outboundReplies]
  · cases hg : w.gen with
    | raised cause =>
        simp [hm, hg, ht, ha, handle_message, outboundReplies, exceptBranch]
    | responded o =>
        cases o <;>
          simp [hm, hg, ht, hr, ha, handle_message, outboundReplies,
            exceptBranch]

/-- Witness for C1 at a concrete input: non-empty text, successful
completion, healthy outbound channel. -/
theorem C1_exactly_one_reply_witness :
    outboundReplies (handle_message "2+2?" (some "alice") "Alice" 7
      { typingOk := true, gen := GenOutcome.responded (some "4"),
        replySendOk := true, replySendCause := "", apologySendOk := true }) =
      [(7, "4")] := by
  simpa using C1_exactly_one_reply "2+2?" (some "alice") "Alice" 7
    { typingOk := true, gen := GenOutcome.responded (some "4"),
      replySendOk := true, replySendCause := "", apologySendOk := true }
    rfl rfl rfl

/-- C2 counterexample: a whitespace-only (hence non-empty) message is not
filtered out by the handler's emptiness check — it triggers a typing
signal, a completion call and an outbound reply, refuting the claim that
whitespace-only text yields zero outbound sends. -/
theorem C2_counterexample :
    completionCalls (handle_message " " (some "alice") "Alice" 7
      { typingOk := true, gen := GenOutcome.responded (some "4"),
        replySendOk := true, replySendCause := "", apologySendOk := true })
      = [" "] ∧
    sendAttempts (handle_message " " (some "alice") "Alice" 7
      { typingOk := true, gen := GenOutcome.responded (some "4"),
        replySendOk := true, replySendCause := "", apologySendOk := true })
      = [(7, "4", true)] := by
  constructor <;> rfl

/-- C2 amended: for every text event whose text is exactly the empty
string, the relay handler performs zero outbound sends, no typing
signal and no completion call — its only effect is the initial info log
line. -/
theorem C2_empty_no_sends (username : Option String) (firstName : String)
    (conv : Nat) (w : World) :
    (handle_message "" username firstName conv w).trace =
      [Effect.logInfo (infoLogMsg (userDisplay username firstName) "")] ∧
    (handle_message "" username firstName conv w).raised = false := by
  constructor <;> rfl

/-- C3: on completion success, the outbound reply payload equals the
returned text verbatim — no truncation, escaping or other mutation, for
every possible returned string. -/
theorem C3_verbatim_reply (msg t : String) (username : Option String)
    (firstName : String) (conv : Nat) (w : World) (hm : msg ≠ "")
    (ht : w.typingOk = true) (hg : w.gen = GenOutcome.responded (some t))
    (hr : w.replySendOk = true) :
    outboundReplies (handle_message msg username firstName conv w) =
      [(conv, t)] := by
  simp [hm, hg, ht, hr, handle_message, outboundReplies]

/-- Witness for C3 at a concrete input. -/
theorem C3_verbatim_reply_witness :
    outboundReplies (handle_message "hi" (some "bob") "Bob" 3
      { typingOk := true, gen := GenOutcome.responded (some "Hello"),
        replySendOk := true, replySendCause := "", apologySendOk := true }) =
      [(3, "Hello")] :=
  C3_verbatim_reply "hi" "Hello" (some "bob") "Bob" 3
    { typingOk := true, gen := GenOutcome.responded (some "Hello"),
      replySendOk := true, replySendCause := "", apologySendOk := true }
    (by decide) rfl rfl rfl

/-- C4: for every failure of the completion call — a raised exception
with any cause, or a well-formed response carrying no extractable
text — the outbound reply payload is the one fixed apology string,
identical regardless of the cause; the cause never appears in the sent
text. -/
theorem C4_fixed_apology (msg : String) (username : Option String)
    (firstName : String) (conv : Nat) (w : World) (hm : msg ≠ "")
    (ht : w.typingOk = true)
    (hfail : ∀ t, w.gen ≠ GenOutcome.responded (some t))
    (ha : w.apologySendOk = true) :
    outboundReplies (handle_message msg username firstName conv w) =
      [(conv, APOLOGY)] := by
  cases hg : w.gen with
  | raised cause =>
      simp [hm, hg, ht, ha, handle_message, outboundReplies, exceptBranch]
  | responded o =>
      cases o with
      | none =>
          simp [hm, hg, ht, ha, handle_message, outboundReplies, exceptBranch]
      | some t => exact absurd hg (hfail t)

/-- Witness for C4 at a concrete input: a raised network timeout. -/
theorem C4_fixed_apology_witness :
    outboundReplies (handle_message "2+2?" (some "carol") "Carol" 5
      { typingOk := true, gen := GenOutcome.raised "network timeout",
        replySendOk := true, replySendCause := "", apologySendOk := true }) =
      [(5, APOLOGY)] :=
  C4_fixed_apology "2+2?" (some "carol") "Carol" 5
    { typingOk := true, gen := GenOutcome.raised "network timeout",
      replySendOk := true, replySendCause := "", apologySendOk := true }
    (by decide) rfl (fun t h => by simp at h) rfl

/-- C5 counterexample: the typing-action send happens outside the `try`
block, so when it fails the handler aborts — no completion call and no
outbound reply occur, refuting the claim that a failed activity signal
does not abort the handler. -/
theorem C5_counterexample :
    completionCalls (handle_message "2+2?" (some "dave") "Dave" 2
      { typingOk := false, gen := GenOutcome.responded (some "4"),
        replySendOk := true, replySendCause := "", apologySendOk := true })
      = [] ∧
    sendAttempts (handle_message "2+2?" (some "dave") "Dave" 2
      { typingOk := false, gen := GenOutcome.responded (some "4"),
        replySendOk := true, replySendCause := "", apologySendOk := true })
      = [] ∧
    (handle_message "2+2?" (some "dave") "Dave" 2
      { typingOk := false, gen := GenOutcome.responded (some "4"),
        replySendOk := true, replySendCause := "", apologySendOk := true }).raised
      = true :=
  ⟨rfl, rfl, rfl⟩

/-- C5 amended: the typing signal is emitted strictly before the
completion call begins, but it is not best-effort — when the typing send
fails, the exception escapes the handler, so neither the completion call
nor any outbound send occurs. -/
theorem C5_typing_order_and_abort (msg : String) (username : Option String)
    (firstName : String) (conv : Nat) (w : World) (hm : msg ≠ "") :
    (w.typingOk = true →
      (handle_message msg username firstName conv w).trace.take 3 =
        [Effect.logInfo (infoLogMsg (userDisplay username firstName) msg),
          Effect.sendTyping conv true, Effect.genCall msg]) ∧
    (w.typingOk = false →
      (handle_message msg username firstName conv w).trace =
        [Effect.logInfo (infoLogMsg (userDisplay username firstName) msg),
          Effect.sendTyping conv false] ∧
      (handle_message msg username firstName conv w).raised = true) := by
  constructor
  · intro ht
    cases hg : w.gen with
    | raised cause =>
        simp [hm, hg, ht, handle_message, exceptBranch]
    | responded o =>
        cases o <;> by_cases hr : w.replySendOk <;>
          simp [hm, hg, ht, hr, handle_message, exceptBranch]
  · intro ht
    constructor <;> simp [hm, ht, handle_message]

/-- Witness for the C5 amended theorem at a concrete input with a
failing typing send. -/
theorem C5_typing_order_and_abort_witness :
    (handle_message "hi" (some "frank") "Frank" 11
      { typingOk := false, gen := GenOutcome.responded (some "ok"),
        replySendOk := true, replySendCause := "",
        apologySendOk := true }).trace =
      [Effect.logInfo (infoLogMsg (userDisplay (some "frank") "Frank") "hi"),
        Effect.sendTyping 11 false] ∧
    (handle_message "hi" (some "frank") "Frank" 11
      { typingOk := false, gen := GenOutcome.responded (some "ok"),
        replySendOk := true, replySendCause := "",
        apologySendOk := true }).raised = true :=
  (C5_typing_order_and_abort "hi" (some "frank") "Frank" 11
    { typingOk := false, gen := GenOutcome.responded (some "ok"),
      replySendOk := true, replySendCause := "", apologySendOk := true }
    (by decide)).2 rfl

/-- C6 counterexample: in the concrete scenario of input text `2+2?`
with a network-timeout failure, the error log entry produced by the
handler contains the sender identity and the cause but does not contain
the original message text, refuting the claim that it does. -/
theorem C6_counterexample :
    errorLogs (handle_message "2+2?" (some "alice") "Alice" 7
      { typingOk := true, gen := GenOutcome.raised "network timeout",
        replySendOk := true, replySendCause := "", apologySendOk := true })
      = [errorLogMsg "alice" "network timeout"] ∧
    ¬ ("2+2?".data <:+: (errorLogMsg "alice" "network timeout").data) ∧
    ("network timeout".data <:+: (errorLogMsg "alice" "network timeout").data) ∧
    ("alice".data <:+: (errorLogMsg "alice" "network timeout").data) :=
  ⟨rfl, by decide, by decide, by decide⟩

/-- C6 amended: on completion failure the error log entry contains the
sender identity and the failure cause but not, in general, the original
message text; the original text appears in the separate info log entry
emitted at the start of the handler. -/
theorem C6_error_log_contents (msg cause : String) (username : Option String)
    (firstName : String) (conv : Nat) (w : World) (hm : msg ≠ "")
    (ht : w.typingOk = true) (hg : w.gen = GenOutcome.raised cause) :
    errorLogs (handle_message msg username firstName conv w) =
      [errorLogMsg (userDisplay username firstName) cause] ∧
    (userDisplay username firstName).data <:+:
      (errorLogMsg (userDisplay username firstName) cause).data ∧
    cause.data <:+: (errorLogMsg (userDisplay username firstName) cause).data ∧
    msg.data <:+: (infoLogMsg (userDisplay username firstName) msg).data ∧
    (handle_message msg username firstName conv w).trace.take 1 =
      [Effect.logInfo (infoLogMsg (userDisplay username firstName) msg)] := by
  refine ⟨?_, ?_, ?_, ?_, ?_⟩
  · simp [hm, hg, ht, handle_message, exceptBranch, errorLogs]
  · exact ⟨"Ошибка при работе с Gemini для пользователя ".data,
      (": " ++ cause).data, by simp [errorLogMsg, String.data_append]⟩
  · exact ⟨("Ошибка при работе с Gemini для пользователя " ++
      userDisplay username firstName ++ ": ").data, [],
      by simp [errorLogMsg, String.data_append]⟩
  · exact ⟨("Получено сообщение от " ++ userDisplay username firstName ++
      ": " ++ apos).data, apos.data,
      by simp [infoLogMsg, String.data_append]⟩
  · simp [hm, hg, ht, handle_message, exceptBranch]

/-- Witness for the C6 amended theorem at a concrete input. -/
theorem C6_error_log_contents_witness :
    errorLogs (handle_message "9*9?" (some "gail") "Gail" 12
      { typingOk := true, gen := GenOutcome.raised "quota exceeded",
        replySendOk := true, replySendCause := "", apologySendOk := true }) =
      [errorLogMsg (userDisplay (some "gail") "Gail") "quota exceeded"] :=
  (C6_error_log_contents "9*9?" "quota exceeded" (some "gail") "Gail" 12
    { typingOk := true, gen := GenOutcome.raised "quota exceeded",
      replySendOk := true, replySendCause := "", apologySendOk := true }
    (by decide) rfl rfl).1

/-- C7 counterexample: when the send of the generated reply fails, the
`except` block catches the exception and attempts a second outbound
send (the apology), so a single event can perform two reply-send
attempts, refuting the claim that a failed reply send leads to no
further send. -/
theorem C7_counterexample :
    sendAttempts (handle_message "2+2?" (some "erin") "Erin" 9
      { typingOk := true, gen := GenOutcome.responded (some "4"),
        replySendOk := false, replySendCause := "network error",
        apologySendOk := true }) =
      [(9, "4", false), (9, APOLOGY, true)] ∧
    (sendAttempts (handle_message "2+2?" (some "erin") "Erin" 9
      { typingOk := true, gen := GenOutcome.responded (some "4"),
        replySendOk := false, replySendCause := "network error",
        apologySendOk := true })).length = 2 :=
  ⟨rfl, rfl⟩

/-- C7 amended: every handled event performs at most one completion call
and at most two outbound send attempts; when the send of the generated
reply fails, the failure is logged and exactly one apology send is
attempted — the original reply is never retried. -/
theorem C7_no_retry (msg : String) (username : Option String)
    (firstName : String) (conv : Nat) (w : World) :
    (completionCalls (handle_message msg username firstName conv w)).length ≤ 1 ∧
    (sendAttempts (handle_message msg username firstName conv w)).length ≤ 2 ∧
    (∀ t, w.gen = GenOutcome.responded (some t) → w.typingOk = true →
      w.replySendOk = false → msg ≠ "" →
      sendAttempts (handle_message msg username firstName conv w) =
        [(conv, t, false), (conv, APOLOGY, w.apologySendOk)] ∧
      errorLogs (handle_message msg username firstName conv w) =
        [errorLogMsg (userDisplay username firstName) w.replySendCause]) := by
  refine ⟨?_, ?_, ?_⟩
  · by_cases hm : msg = ""
    · simp [hm, handle_message, completionCalls]
    · cases ht : w.typingOk <;> cases hg : w.gen with
      | raised cause =>
          simp [hm, ht, hg, handle_message, exceptBranch, completionCalls]
      | responded o =>
          cases o <;> by_cases hr : w.replySendOk <;>
            simp [hm, ht, hg, hr, handle_message, exceptBranch,
              completionCalls]
  · by_cases hm : msg = ""
    · simp [hm, handle_message, sendAttempts]
    · cases ht : w.typingOk <;> cases hg : w.gen with
      | raised cause =>
          simp [hm, ht, hg, handle_message, exceptBranch, sendAttempts]
      | responded o =>
          cases o <;> by_cases hr : w.replySendOk <;>
            simp [hm, ht, hg, hr, handle_message, exceptBranch, sendAttempts]
  · intro t hg ht hr hm
    constructor <;>
      simp [hm, ht, hg, hr, handle_message, exceptBranch, sendAttempts,
        errorLogs]

/-- Witness for the C7 amended theorem at a concrete input with a
failing reply send. -/
theorem C7_no_retry_witness :
    sendAttempts (handle_message "2+2?" (some "hank") "Hank" 4
      { typingOk := true, gen := GenOutcome.responded (some "ok"),
        replySendOk := false, replySendCause := "cable cut",
        apologySendOk := true }) =
      [(4, "ok", false), (4, APOLOGY, true)] :=
  ((C7_no_retry "2+2?" (some "hank") "Hank" 4
    { typingOk := true, gen := GenOutcome.responded (some "ok"),
      replySendOk := false, replySendCause := "cable cut",
      apologySendOk := true }).2.2 "ok" rfl rfl rfl (by decide)).1

/-- C8: the start command always replies with the fixed greeting text
and the help command always replies with the fixed usage text, for
every sender identity — the reply payload is independent of the
event's sender. -/
theorem C8_fixed_command_replies (u1 u2 : Option String) (conv : Nat)
    (sendOk : Bool) :
    sendPayloads (start_command u1 conv sendOk) = [GREETING] ∧
    sendPayloads (help_command u1 conv sendOk) = [USAGE] ∧
    sendPayloads (start_command u1 conv sendOk) =
      sendPayloads (start_command u2 conv sendOk) ∧
    sendPayloads (help_command u1 conv sendOk) =
      sendPayloads (help_command u2 conv sendOk) := by
  cases sendOk <;>
    simp [start_command, help_command, sendPayloads, sendAttempts]

/-- C9: when either required secret is absent from the process
environment at startup, the process exits with a non-zero status during
the module-level checks, before any handler is registered. -/
theorem C9_missing_secret_exits (telegramToken geminiKey : Option String)
    (h : telegramToken = none ∨ geminiKey = none) :
    ∃ code, moduleStartup telegramToken geminiKey =
        StartupResult.exited code ∧ code ≠ 0 ∧
      registeredHandlers (moduleStartup telegramToken geminiKey) = [] := by
  rcases h with h | h <;> subst h
  · exact ⟨1, by simp [moduleStartup, pyFalsy], by decide,
      by simp [moduleStartup, pyFalsy, registeredHandlers]⟩
  · refine ⟨1, ?_, by decide, ?_⟩ <;>
      by_cases hp : pyFalsy telegramToken <;>
        simp [moduleStartup, pyFalsy, registeredHandlers, hp]

/-- Witness for C9: startup with the Telegram token unset. -/
theorem C9_missing_secret_exits_witness :
    ∃ code, moduleStartup none (some "gemini-key") =
        StartupResult.exited code ∧ code ≠ 0 ∧
      registeredHandlers (moduleStartup none (some "gemini-key")) = [] :=
  C9_missing_secret_exits none (some "gemini-key") (Or.inl rfl)

/-- C10: an inbound text that is command-shaped (starts with the command
prefix) but matches neither the start nor the help command handler is
dispatched to no handler at all — the free-text handler's filter
excludes command-shaped messages — and processing it performs zero
effects, in particular zero outbound sends. -/
theorem C10_unrecognized_command_dropped (botName t : String)
    (username : Option String) (firstName : String) (conv : Nat)
    (sendOk : Bool) (w : World)
    (hcmd : isCommandShaped t = true)
    (hstart : cmdMatches ["start"] botName t = false)
    (hhelp : cmdMatches ["help"] botName t = false) :
    dispatch botName t = none ∧
    processUpdate botName t username firstName conv sendOk w = [] := by
  have hd : dispatch botName t = none := by
    simp [dispatch, hstart, hhelp, hcmd]
  exact ⟨hd, by simp [processUpdate, hd]⟩

/-- Witness for C10: the unrecognized command text `/weather` is
dropped. -/
theorem C10_unrecognized_command_dropped_witness :
    dispatch "mybot" "/weather" = none ∧
    processUpdate "mybot" "/weather" (some "ivy") "Ivy" 6 true
      { typingOk := true, gen := GenOutcome.responded (some "x"),
        replySendOk := true, replySendCause := "", apologySendOk := true }
      = [] :=
  C10_unrecognized_command_dropped "mybot" "/weather" (some "ivy") "Ivy" 6
    true
    { typingOk := true, gen := GenOutcome.responded (some "x"),
      replySendOk := true, replySendCause := "", apologySendOk := true }
    (by decide) (by decide) (by decide)

end Bot
